import Mathlib

/-!
Verification of the session lifecycle manager of the kpiwa-wpp repository.

The development shallowly embeds two source modules:

* `src/server.js` (the `initialize-with-qr` route): the per-initialization
  readiness state (`isInChat`, `isMainMode`, `sessionCompleteEmitted`), the
  helper `checkAndEmitSessionComplete`, and the status / interface callbacks
  that drive it.  Events are modelled as a list consumed in order (the host
  runtime is single threaded), and the observable effects of the callbacks
  are recorded in an action trace.

* `src/unnamed/part_002` (the wpp module variant the routes use): the client
  registry (`clients` map), `cleanupChromeLockFiles`,
  `getOrCreateClientWithCallbacks` with its single lock-signature retry,
  `isAuthenticated`, `sendText`, `listChats`, `deleteSession` and
  `cleanupFailedSession`.  The automation engine and the filesystem are
  modelled by explicit behaviour records; every engine or filesystem call the
  code performs is recorded in an action trace.
-/

namespace KpiwaWpp

/-! ### Event relay model, from src/server.js lines 56-206 -/

/-- Readiness state of one initialization attempt, from src/server.js
lines 62-64: `isInChat`, `isMainMode`, `sessionCompleteEmitted`. -/
structure ReadinessState where
  isInChat : Bool
  isMainMode : Bool
  sessionCompleteEmitted : Bool
deriving DecidableEq, Repr

/-- Initial readiness state: all three booleans start as `false`
(src/server.js lines 62-64). -/
def initReadiness : ReadinessState :=
  { isInChat := false, isMainMode := false, sessionCompleteEmitted := false }

/-- An upstream event delivered to the relay: a `statusFind` status string
(relayed through `statusCallback`) or an `onInterfaceChange` mode string
(relayed through `interfaceCallback`). -/
inductive RelayEvent where
  | statusUpdate (status : String)
  | interfaceChange (mode : String)
deriving DecidableEq, Repr

/-- Observable actions of the relay callbacks:
`statusBroadcast` is the unconditional `io.to(room).emit(status-update)`;
`sessionCompleteEmit` and `disconnectSubscribers` are the two effects of the
completion rule in `checkAndEmitSessionComplete` (src/server.js lines 80-91);
`scheduleFailureCleanup` and `failureDisconnect` are the effects of the
`initialization-error` branch (src/server.js lines 116-140). -/
inductive RelayAction where
  | statusBroadcast (status : String)
  | sessionCompleteEmit
  | disconnectSubscribers
  | scheduleFailureCleanup
  | failureDisconnect
deriving DecidableEq, Repr

/-- The helper `checkAndEmitSessionComplete` of src/server.js lines 67-96:
when `isInChat && isMainMode && !sessionCompleteEmitted` it sets the one-shot
flag, emits `session-complete` to the subscribers of the room and schedules
their disconnection; otherwise it does nothing. -/
def checkAndEmitSessionComplete (st : ReadinessState) :
    ReadinessState × List RelayAction :=
  if st.isInChat && st.isMainMode && !st.sessionCompleteEmitted then
    ({ st with sessionCompleteEmitted := true },
     [RelayAction.sessionCompleteEmit, RelayAction.disconnectSubscribers])
  else
    (st, [])

/-- One callback invocation of the relay.  A status event is always
re-broadcast (src/server.js line 106); status `inChat` additionally sets
`isInChat` and runs the completion check (lines 109-112); status
`initialization-error` schedules failed-session cleanup and subscriber
disconnection (lines 116-140).  An interface event with mode `MAIN` sets
`isMainMode` and runs the completion check (lines 145-153); other modes only
log. -/
def relayStep (st : ReadinessState) (ev : RelayEvent) :
    ReadinessState × List RelayAction :=
  match ev with
  | RelayEvent.statusUpdate s =>
      if s = "inChat" then
        let r := checkAndEmitSessionComplete { st with isInChat := true }
        (r.1, RelayAction.statusBroadcast s :: r.2)
      else if s = "initialization-error" then
        (st, [RelayAction.statusBroadcast s, RelayAction.scheduleFailureCleanup,
              RelayAction.failureDisconnect])
      else
        (st, [RelayAction.statusBroadcast s])
  | RelayEvent.interfaceChange m =>
      if m = "MAIN" then
        let r := checkAndEmitSessionComplete { st with isMainMode := true }
        (r.1, r.2)
      else
        (st, [])

/-- Run the relay over a list of events delivered in order, accumulating the
action trace. -/
def relayRun (st : ReadinessState) : List RelayEvent → ReadinessState × List RelayAction
  | [] => (st, [])
  | ev :: evs =>
      let r1 := relayStep st ev
      let r2 := relayRun r1.1 evs
      (r2.1, r1.2 ++ r2.2)

/-- Number of `session-complete` emissions in an action trace. -/
def countEmit : List RelayAction → Nat
  | [] => 0
  | RelayAction.sessionCompleteEmit :: tl => countEmit tl + 1
  | _ :: tl => countEmit tl

theorem countEmit_append (l₁ l₂ : List RelayAction) :
    countEmit (l₁ ++ l₂) = countEmit l₁ + countEmit l₂ := by
  induction l₁ with
  | nil => simp [countEmit]
  | cons a tl ih =>
      cases a <;> simp [countEmit, ih, Nat.add_right_comm]

theorem relayStep_emitted_mono (st : ReadinessState) (ev : RelayEvent)
    (h : st.sessionCompleteEmitted = true) :
    (relayStep st ev).1.sessionCompleteEmitted = true ∧
      countEmit (relayStep st ev).2 = 0 := by
  cases ev with
  | statusUpdate s =>
      by_cases hs : s = "inChat"
      · subst hs
        simp [relayStep, checkAndEmitSessionComplete, h, countEmit]
      · by_cases he : s = "initialization-error" <;>
          simp [relayStep, hs, he, h, countEmit]
  | interfaceChange m =>
      by_cases hm : m = "MAIN"
      · subst hm
        simp [relayStep, checkAndEmitSessionComplete, h, countEmit]
      · simp [relayStep, hm, h, countEmit]

theorem countEmit_checkAndEmit (st : ReadinessState) :
    countEmit (checkAndEmitSessionComplete st).2 ≤ 1 ∧
      (1 ≤ countEmit (checkAndEmitSessionComplete st).2 →
        (checkAndEmitSessionComplete st).1.sessionCompleteEmitted = true) := by
  unfold checkAndEmitSessionComplete
  split <;> simp [countEmit]

theorem relayStep_emit_le_one (st : ReadinessState) (ev : RelayEvent) :
    countEmit (relayStep st ev).2 ≤ 1 ∧
      (1 ≤ countEmit (relayStep st ev).2 →
        (relayStep st ev).1.sessionCompleteEmitted = true) := by
  cases ev with
  | statusUpdate s =>
      by_cases hs : s = "inChat"
      · subst hs
        have h := countEmit_checkAndEmit { st with isInChat := true }
        simpa [relayStep, countEmit] using h
      · by_cases he : s = "initialization-error" <;>
          simp [relayStep, hs, he, countEmit]
  | interfaceChange m =>
      by_cases hm : m = "MAIN"
      · subst hm
        have h := countEmit_checkAndEmit { st with isMainMode := true }
        simpa [relayStep, countEmit] using h
      · simp [relayStep, hm, countEmit]

theorem relayRun_emitted_mono (evts : List RelayEvent) :
    ∀ st : ReadinessState, st.sessionCompleteEmitted = true →
      (relayRun st evts).1.sessionCompleteEmitted = true ∧
        countEmit (relayRun st evts).2 = 0 := by
  induction evts with
  | nil => intro st h; simpa [relayRun, countEmit] using h
  | cons ev evs ih =>
      intro st h
      have h1 := relayStep_emitted_mono st ev h
      have h2 := ih (relayStep st ev).1 h1.1
      simp [relayRun, countEmit_append, h1.2, h2.1, h2.2]

theorem relayRun_emit_budget (evts : List RelayEvent) :
    ∀ st : ReadinessState,
      countEmit (relayRun st evts).2 ≤
        (if st.sessionCompleteEmitted then 0 else 1) := by
  induction evts with
  | nil => intro st; simp [relayRun, countEmit]
  | cons ev evs ih =>
      intro st
      simp only [relayRun, countEmit_append]
      by_cases h : st.sessionCompleteEmitted
      · have h1 := relayStep_emitted_mono st ev h
        have h2 := relayRun_emitted_mono evs (relayStep st ev).1 h1.1
        simp [h, h1.2, h2.2]
      · have hle := relayStep_emit_le_one st ev
        by_cases hc : countEmit (relayStep st ev).2 = 0
        · have h2 := ih (relayStep st ev).1
          have hrun : countEmit (relayRun (relayStep st ev).1 evs).2 ≤ 1 := by
            refine le_trans h2 ?_
            split <;> omega
          simpa [h, hc] using hrun
        · have hone : 1 ≤ countEmit (relayStep st ev).2 := Nat.one_le_iff_ne_zero.mpr hc
          have hset := hle.2 hone
          have h2 := relayRun_emitted_mono evs (relayStep st ev).1 hset
          simpa [h, h2.2] using hle.1

theorem checkAndEmit_emit_needs_both (st : ReadinessState)
    (h : RelayAction.sessionCompleteEmit ∈ (checkAndEmitSessionComplete st).2) :
    (checkAndEmitSessionComplete st).1.isInChat = true ∧
      (checkAndEmitSessionComplete st).1.isMainMode = true := by
  by_cases hc : (st.isInChat && st.isMainMode && !st.sessionCompleteEmitted) = true
  · have hboth : st.isInChat = true ∧ st.isMainMode = true := by
      simp only [Bool.and_eq_true] at hc
      exact ⟨hc.1.1, hc.1.2⟩
    simp only [checkAndEmitSessionComplete]
    split <;> simp [hboth.1, hboth.2]
  · simp [checkAndEmitSessionComplete, hc] at h

theorem relayStep_inchat (st : ReadinessState) :
    relayStep st (RelayEvent.statusUpdate "inChat") =
      ((checkAndEmitSessionComplete { st with isInChat := true }).1,
       RelayAction.statusBroadcast "inChat" ::
         (checkAndEmitSessionComplete { st with isInChat := true }).2) := rfl

theorem relayStep_main (st : ReadinessState) :
    relayStep st (RelayEvent.interfaceChange "MAIN") =
      ((checkAndEmitSessionComplete { st with isMainMode := true }).1,
       (checkAndEmitSessionComplete { st with isMainMode := true }).2) := rfl

theorem relayStep_emit_needs_both (st : ReadinessState) (ev : RelayEvent)
    (h : RelayAction.sessionCompleteEmit ∈ (relayStep st ev).2) :
    (relayStep st ev).1.isInChat = true ∧ (relayStep st ev).1.isMainMode = true := by
  cases ev with
  | statusUpdate s =>
      by_cases hs : s = "inChat"
      · subst hs
        rw [relayStep_inchat] at h ⊢
        simp only [List.mem_cons] at h
        rcases h with h | h
        · exact absurd h (by decide)
        · simpa using checkAndEmit_emit_needs_both { st with isInChat := true } h
      · by_cases he : s = "initialization-error" <;>
          simp [relayStep, hs, he] at h
  | interfaceChange m =>
      by_cases hm : m = "MAIN"
      · subst hm
        rw [relayStep_main] at h ⊢
        simpa using checkAndEmit_emit_needs_both { st with isMainMode := true } h
      · simp [relayStep, hm] at h

theorem relayStep_no_main (st : ReadinessState) (ev : RelayEvent)
    (hm : st.isMainMode = false) (hev : ev ≠ RelayEvent.interfaceChange "MAIN") :
    countEmit (relayStep st ev).2 = 0 ∧
      RelayAction.disconnectSubscribers ∉ (relayStep st ev).2 ∧
      (relayStep st ev).1.isMainMode = false := by
  cases ev with
  | statusUpdate s =>
      by_cases hs : s = "inChat"
      · subst hs
        simp [relayStep, checkAndEmitSessionComplete, hm, countEmit]
      · by_cases he : s = "initialization-error" <;>
          simp [relayStep, hs, he, countEmit, hm]
  | interfaceChange m =>
      have hm2 : m ≠ "MAIN" := fun h => hev (by rw [h])
      simp [relayStep, hm2, countEmit, hm]

theorem relayStep_no_inchat (st : ReadinessState) (ev : RelayEvent)
    (hc : st.isInChat = false) (hev : ev ≠ RelayEvent.statusUpdate "inChat") :
    countEmit (relayStep st ev).2 = 0 ∧
      RelayAction.disconnectSubscribers ∉ (relayStep st ev).2 ∧
      (relayStep st ev).1.isInChat = false := by
  cases ev with
  | statusUpdate s =>
      have hs : s ≠ "inChat" := fun h => hev (by rw [h])
      by_cases he : s = "initialization-error" <;>
        simp [relayStep, hs, he, countEmit, hc]
  | interfaceChange m =>
      by_cases hm : m = "MAIN"
      · subst hm
        simp [relayStep, checkAndEmitSessionComplete, hc, countEmit]
      · simp [relayStep, hm, countEmit, hc]

theorem relayRun_no_main (evts : List RelayEvent) :
    ∀ st : ReadinessState, st.isMainMode = false →
      RelayEvent.interfaceChange "MAIN" ∉ evts →
      countEmit (relayRun st evts).2 = 0 ∧
        RelayAction.disconnectSubscribers ∉ (relayRun st evts).2 ∧
        (relayRun st evts).1.isMainMode = false := by
  induction evts with
  | nil => intro st hm _; simp [relayRun, countEmit, hm]
  | cons ev evs ih =>
      intro st hm hmem
      have hev : ev ≠ RelayEvent.interfaceChange "MAIN" := by
        intro h; exact hmem (by rw [h]; exact List.mem_cons_self _ _)
      have hmem2 : RelayEvent.interfaceChange "MAIN" ∉ evs := fun h =>
        hmem (List.mem_cons_of_mem _ h)
      have h1 := relayStep_no_main st ev hm hev
      have h2 := ih (relayStep st ev).1 h1.2.2 hmem2
      refine ⟨?_, ?_, h2.2.2⟩
      · simp [relayRun, countEmit_append, h1.1, h2.1]
      · simp only [relayRun, List.mem_append, not_or]
        exact ⟨h1.2.1, h2.2.1⟩

theorem relayRun_no_inchat (evts : List RelayEvent) :
    ∀ st : ReadinessState, st.isInChat = false →
      RelayEvent.statusUpdate "inChat" ∉ evts →
      countEmit (relayRun st evts).2 = 0 ∧
        RelayAction.disconnectSubscribers ∉ (relayRun st evts).2 ∧
        (relayRun st evts).1.isInChat = false := by
  induction evts with
  | nil => intro st hc _; simp [relayRun, countEmit, hc]
  | cons ev evs ih =>
      intro st hc hmem
      have hev : ev ≠ RelayEvent.statusUpdate "inChat" := by
        intro h; exact hmem (by rw [h]; exact List.mem_cons_self _ _)
      have hmem2 : RelayEvent.statusUpdate "inChat" ∉ evs := fun h =>
        hmem (List.mem_cons_of_mem _ h)
      have h1 := relayStep_no_inchat st ev hc hev
      have h2 := ih (relayStep st ev).1 h1.2.2 hmem2
      refine ⟨?_, ?_, h2.2.2⟩
      · simp [relayRun, countEmit_append, h1.1, h2.1]
      · simp only [relayRun, List.mem_append, not_or]
        exact ⟨h1.2.1, h2.2.1⟩

/-- C1: for every initialization attempt, over every sequence of status and
interface events (in any order, with `inChat` and `MAIN` firing any number of
times), the `session-complete` notification is emitted at most once; moreover
once the one-shot flag `sessionCompleteEmitted` is set it is never reset, and
from such a state every later completion check emits nothing (src/server.js
lines 62-96). -/
theorem sessionComplete_at_most_once :
    (∀ evts : List RelayEvent,
        countEmit (relayRun initReadiness evts).2 ≤ 1) ∧
    (∀ (st : ReadinessState) (evts : List RelayEvent),
        st.sessionCompleteEmitted = true →
        (relayRun st evts).1.sessionCompleteEmitted = true ∧
          countEmit (relayRun st evts).2 = 0) := by
  constructor
  · intro evts
    have h := relayRun_emit_budget evts initReadiness
    simpa [initReadiness] using h
  · intro st evts h
    exact relayRun_emitted_mono evts st h

theorem sessionComplete_at_most_once_witness :
    countEmit (relayRun initReadiness
      [RelayEvent.statusUpdate "inChat", RelayEvent.statusUpdate "inChat",
       RelayEvent.interfaceChange "MAIN", RelayEvent.interfaceChange "MAIN"]).2 ≤ 1 ∧
    ((relayRun { isInChat := true, isMainMode := true, sessionCompleteEmitted := true }
        [RelayEvent.statusUpdate "inChat"]).1.sessionCompleteEmitted = true ∧
      countEmit (relayRun
        { isInChat := true, isMainMode := true, sessionCompleteEmitted := true }
        [RelayEvent.statusUpdate "inChat"]).2 = 0) :=
  ⟨sessionComplete_at_most_once.1 _, sessionComplete_at_most_once.2 _ _ rfl⟩

/-- C2: `session-complete` is emitted only with both readiness flags true
(the transport flag set by an `inChat` status and the interface flag set by a
`MAIN` interface mode), and for every event sequence in which one of the two
signals never fires there are zero emissions and the completion rule
disconnects no subscriber (src/server.js lines 62-154). -/
theorem sessionComplete_requires_both_signals :
    (∀ (st : ReadinessState) (ev : RelayEvent),
        RelayAction.sessionCompleteEmit ∈ (relayStep st ev).2 →
        (relayStep st ev).1.isInChat = true ∧
          (relayStep st ev).1.isMainMode = true) ∧
    (∀ evts : List RelayEvent,
        RelayEvent.interfaceChange "MAIN" ∉ evts →
        countEmit (relayRun initReadiness evts).2 = 0 ∧
          RelayAction.disconnectSubscribers ∉ (relayRun initReadiness evts).2) ∧
    (∀ evts : List RelayEvent,
        RelayEvent.statusUpdate "inChat" ∉ evts →
        countEmit (relayRun initReadiness evts).2 = 0 ∧
          RelayAction.disconnectSubscribers ∉ (relayRun initReadiness evts).2) := by
  refine ⟨relayStep_emit_needs_both, ?_, ?_⟩
  · intro evts h
    have := relayRun_no_main evts initReadiness rfl h
    exact ⟨this.1, this.2.1⟩
  · intro evts h
    have := relayRun_no_inchat evts initReadiness rfl h
    exact ⟨this.1, this.2.1⟩

theorem sessionComplete_requires_both_signals_witness :
    ((relayStep { isInChat := true, isMainMode := false, sessionCompleteEmitted := false }
        (RelayEvent.interfaceChange "MAIN")).1.isInChat = true ∧
      (relayStep { isInChat := true, isMainMode := false, sessionCompleteEmitted := false }
        (RelayEvent.interfaceChange "MAIN")).1.isMainMode = true) ∧
    (countEmit (relayRun initReadiness
        [RelayEvent.statusUpdate "inChat", RelayEvent.statusUpdate "inChat"]).2 = 0 ∧
      RelayAction.disconnectSubscribers ∉ (relayRun initReadiness
        [RelayEvent.statusUpdate "inChat", RelayEvent.statusUpdate "inChat"]).2) ∧
    (countEmit (relayRun initReadiness [RelayEvent.interfaceChange "MAIN"]).2 = 0 ∧
      RelayAction.disconnectSubscribers ∉ (relayRun initReadiness
        [RelayEvent.interfaceChange "MAIN"]).2) :=
  ⟨sessionComplete_requires_both_signals.1 _ _ (by decide),
   sessionComplete_requires_both_signals.2.1 _ (by decide),
   sessionComplete_requires_both_signals.2.2 _ (by decide)⟩

/-! ### Wpp module model, from src/unnamed/part_002 lines 1-504 -/

/-- Boolean test that the list `s` starts with the list `p`. -/
def listStartsWith : List Char → List Char → Bool
  | _, [] => true
  | [], _ :: _ => false
  | a :: s, b :: p => a = b && listStartsWith s p

/-- Boolean test that `p` occurs as a contiguous sub-list of `s`. -/
def listContainsSub : List Char → List Char → Bool
  | [], p => p.isEmpty
  | a :: s, p => listStartsWith (a :: s) p || listContainsSub s p

/-- String version of `listStartsWith`. -/
def strStartsWith (s p : String) : Bool :=
  listStartsWith s.data p.data

/-- Model of the JavaScript `String.prototype.includes` used on error
messages (src/unnamed/part_002 line 115). -/
def strIncludes (s p : String) : Bool :=
  listContainsSub s.data p.data

/-- The lock-marker signature test of src/unnamed/part_002 line 115:
the message contains `SingletonLock` or `ProcessSingleton`. -/
def lockErrorSignature (msg : String) : Bool :=
  strIncludes msg "SingletonLock" || strIncludes msg "ProcessSingleton"

/-- The profile directory derived from the session identifier:
`path.join(__dirname, data, tokens, sessionName)` (src/unnamed/part_002
lines 11 and 59); the `__dirname` component is dropped as a common root. -/
def sessionDataDir (id : String) : String :=
  "data/tokens/" ++ id

/-- The three well-known Chrome lock-marker filenames
(src/unnamed/part_002 line 12). -/
def chromeLockFiles : List String :=
  ["SingletonLock", "SingletonCookie", "SingletonSocket"]

/-- Path of one lock-marker file under the profile directory of a session
(src/unnamed/part_002 line 17). -/
def lockFilePath (id f : String) : String :=
  sessionDataDir id ++ "/" ++ f

/-- Filesystem model: the set of currently existing paths. -/
structure Fs where
  paths : List String
deriving DecidableEq, Repr

/-- Model of `fs.existsSync`. -/
def Fs.existsPath (fs : Fs) (p : String) : Bool :=
  decide (p ∈ fs.paths)

/-- Model of `fs.unlinkSync`. -/
def Fs.unlink (fs : Fs) (p : String) : Fs :=
  ⟨fs.paths.filter (fun q => !(decide (q = p)))⟩

/-- Model of the recursive `fs.rmSync(dir, recursive + force)`: the
directory and everything under it disappear. -/
def Fs.rmRecursive (fs : Fs) (p : String) : Fs :=
  ⟨fs.paths.filter (fun q => !(strStartsWith q p))⟩

/-- One loop iteration of `cleanupChromeLockFiles`: unlink the lock file if
it exists, otherwise leave the filesystem unchanged (src/unnamed/part_002
lines 16-26; an unlink error is caught and logged, which the model folds
into the no-change case). -/
def removeIfPresent (fs : Fs) (p : String) : Fs :=
  if fs.existsPath p then fs.unlink p else fs

/-- The helper `cleanupChromeLockFiles` of src/unnamed/part_002 lines 10-27:
delete each of the three known lock markers under the profile directory of
the session. -/
def cleanupChromeLockFiles (fs : Fs) (id : String) : Fs :=
  chromeLockFiles.foldl (fun acc f => removeIfPresent acc (lockFilePath id f)) fs

/-- Client registry model: the module-level `clients` map of
src/unnamed/part_002 line 7, as an association list from session name to a
client handle (handles are abstracted to numbers). -/
abbrev Registry := List (String × Nat)

/-- Model of `clients.get` / `clients.has`. -/
def regGet : Registry → String → Option Nat
  | [], _ => none
  | (k, v) :: tl, id => if k = id then some v else regGet tl id

/-- Model of `clients.delete`. -/
def regErase (reg : Registry) (id : String) : Registry :=
  reg.filter (fun p => !(decide (p.1 = id)))

/-- Model of `clients.set`: unconditionally replaces any existing entry. -/
def regSet (reg : Registry) (id : String) (c : Nat) : Registry :=
  (id, c) :: regErase reg id

/-- Model of `clients.has`. -/
def regHas (reg : Registry) (id : String) : Bool :=
  (regGet reg id).isSome

/-- Engine and filesystem calls performed by the wpp module, recorded in
order as an action trace. -/
inductive WAction where
  | probeOk
  | probeFailed
  | createAttempt
  | cleanupLocks
  | delayMs (ms : Nat)
  | logoutCall
  | closeCall
  | isAuthCall
  | rmDir (p : String)
  | statusErrorCb
  | reconnectTimeout
deriving DecidableEq, Repr

/-- Number of `wppconnect.create` invocations in a trace. -/
def countCreate : List WAction → Nat
  | [] => 0
  | WAction.createAttempt :: tl => countCreate tl + 1
  | _ :: tl => countCreate tl

/-- Behaviour of the external automation engine during one wpp-module call:
the outcome of the probe on a cached client, of the n-th
`wppconnect.create` invocation, and of the logout / close / isAuthenticated
calls, plus whether the 10-second reconnect race in `deleteSession` times
out before the reconnect settles. -/
structure Engine where
  probeOk : Bool
  createResult : Nat → Except String Nat
  logoutResult : Except String Unit
  closeResult : Except String Unit
  isAuthResult : Except String Bool
  reconnectTimesOut : Bool

/-- The creation part of `getOrCreateClientWithCallbacks`
(src/unnamed/part_002 lines 51-201): one `wppconnect.create` invocation; on
a failure whose message carries the lock signature, clean the lock markers,
wait 500 ms and retry exactly once, propagating a second failure; on any
other failure propagate immediately with zero retries.  The
`onStatusChange(error)` callback invocations of both propagation paths are
recorded as `statusErrorCb`. -/
def createWithLockRetry (reg : Registry) (eng : Engine) (fs : Fs) (id : String) :
    Except String Nat × Registry × Fs × List WAction :=
  match eng.createResult 0 with
  | Except.ok c => (Except.ok c, regSet reg id c, fs, [WAction.createAttempt])
  | Except.error e =>
      if lockErrorSignature e then
        let fs1 := cleanupChromeLockFiles fs id
        match eng.createResult 1 with
        | Except.ok c =>
            (Except.ok c, regSet reg id c, fs1,
             [WAction.createAttempt, WAction.cleanupLocks, WAction.delayMs 500,
              WAction.createAttempt])
        | Except.error e2 =>
            (Except.error e2, reg, fs1,
             [WAction.createAttempt, WAction.cleanupLocks, WAction.delayMs 500,
              WAction.createAttempt, WAction.statusErrorCb])
      else
        (Except.error e, reg, fs, [WAction.createAttempt, WAction.statusErrorCb])

/-- The function `getOrCreateClientWithCallbacks` of src/unnamed/part_002
lines 31-202: return the cached client when its `getConnectionState` probe
succeeds; on a failed probe evict the stale entry and fall through to
creation; on a cache miss go straight to creation. -/
def getOrCreateClientWithCallbacks (reg : Registry) (eng : Engine) (fs : Fs)
    (id : String) : Except String Nat × Registry × Fs × List WAction :=
  match regGet reg id with
  | some c =>
      if eng.probeOk then
        (Except.ok c, reg, fs, [WAction.probeOk])
      else
        let out := createWithLockRetry (regErase reg id) eng fs id
        (out.1, out.2.1, out.2.2.1, WAction.probeFailed :: out.2.2.2)
  | none => createWithLockRetry reg eng fs id

/-- The summary object returned by `deleteSession` (src/unnamed/part_002
lines 430-436); `clientRemoved` is literally `clients.has(sessionName) ===
false` and `dataDirectoryDeleted` is literally `!fs.existsSync(dir)` at
return time, so both fields report the absence of the handle or directory
after the call, not an action taken by the call. -/
structure DeleteSummary where
  sessionName : String
  deleted : Bool
  clientRemoved : Bool
  dataDirectoryDeleted : Bool
deriving DecidableEq, Repr

/-- The tail of `deleteSession` (src/unnamed/part_002 lines 415-436): wait
1000 ms and recursively delete the profile directory when it exists, then
build the summary from the current registry and filesystem. -/
def deleteFinish (id : String) (reg : Registry) (fs : Fs) (tr : List WAction) :
    Except String DeleteSummary × Registry × Fs × List WAction :=
  if fs.existsPath (sessionDataDir id) then
    let fs1 := fs.rmRecursive (sessionDataDir id)
    (Except.ok
      { sessionName := id, deleted := true,
        clientRemoved := !(regHas reg id),
        dataDirectoryDeleted := !(fs1.existsPath (sessionDataDir id)) },
     reg, fs1, tr ++ [WAction.delayMs 1000, WAction.rmDir (sessionDataDir id)])
  else
    (Except.ok
      { sessionName := id, deleted := true,
        clientRemoved := !(regHas reg id),
        dataDirectoryDeleted := !(fs.existsPath (sessionDataDir id)) },
     reg, fs, tr)

/-- Teardown of a cached client inside `deleteSession` (src/unnamed/part_002
lines 358-371): `logout` then `close` inside one try block, so a logout
failure is caught and skips the close; either way the error is only
logged. -/
def cachedTeardownTrace (eng : Engine) : List WAction :=
  match eng.logoutResult with
  | Except.ok _ => [WAction.logoutCall, WAction.closeCall]
  | Except.error _ => [WAction.logoutCall]

/-- Teardown after a successful reconnect inside `deleteSession`
(src/unnamed/part_002 lines 393-404): check `isAuthenticated`, log out only
when authenticated, then close; any throw is caught by the surrounding
catch. -/
def reconnectTeardownTrace (eng : Engine) : List WAction :=
  match eng.isAuthResult with
  | Except.error _ => [WAction.isAuthCall]
  | Except.ok true =>
      match eng.logoutResult with
      | Except.error _ => [WAction.isAuthCall, WAction.logoutCall]
      | Except.ok _ => [WAction.isAuthCall, WAction.logoutCall, WAction.closeCall]
  | Except.ok false => [WAction.isAuthCall, WAction.closeCall]

/-- The function `deleteSession` of src/unnamed/part_002 lines 352-442.
With a cached client: best-effort logout and close, remove from the
registry, then delete the directory.  Without one, when the profile
directory exists: race a reconnect against a 10-second timeout; on timeout
abandon the reconnect; on settle perform the reconnect teardown; all
failures are caught and deletion proceeds.  Finally delete the directory
when present and return the summary. -/
def deleteSession (reg : Registry) (eng : Engine) (fs : Fs) (id : String) :
    Except String DeleteSummary × Registry × Fs × List WAction :=
  match regGet reg id with
  | some _ => deleteFinish id (regErase reg id) fs (cachedTeardownTrace eng)
  | none =>
      if fs.existsPath (sessionDataDir id) then
        if eng.reconnectTimesOut then
          deleteFinish id reg fs [WAction.reconnectTimeout]
        else
          deleteFinish id
            (regErase (getOrCreateClientWithCallbacks reg eng fs id).2.1 id)
            (getOrCreateClientWithCallbacks reg eng fs id).2.2.1
            (match (getOrCreateClientWithCallbacks reg eng fs id).1 with
             | Except.ok _ =>
                 (getOrCreateClientWithCallbacks reg eng fs id).2.2.2 ++
                   reconnectTeardownTrace eng
             | Except.error _ =>
                 (getOrCreateClientWithCallbacks reg eng fs id).2.2.2)
      else
        deleteFinish id reg fs []

/-- The continuation of `getOrCreateClientWithCallbacks` that runs when the
awaited `wppconnect.create` finally resolves (src/unnamed/part_002 line
106): `clients.set(sessionName, client)`.  Nothing in the code guards this
continuation, so it also runs when the creation was started by the
abandoned reconnect race of `deleteSession` and resolves after the timeout
already fired. -/
def lateCreateCompletion (reg : Registry) (id : String) (c : Nat) : Registry :=
  regSet reg id c

/-- The summary object returned by `cleanupFailedSession`
(src/unnamed/part_002 lines 482-486). -/
structure CleanupSummary where
  sessionName : String
  cleaned : Bool
deriving DecidableEq, Repr

/-- The function `cleanupFailedSession` of src/unnamed/part_002 lines
449-492: close (never logout) a cached client and drop it from the
registry, always wait 1000 ms, then delete the profile directory when it
exists. -/
def cleanupFailedSession (reg : Registry) (fs : Fs) (id : String) :
    Except String CleanupSummary × Registry × Fs × List WAction :=
  let reg1 := match regGet reg id with
    | some _ => regErase reg id
    | none => reg
  let tr1 : List WAction := match regGet reg id with
    | some _ => [WAction.closeCall]
    | none => []
  let tr2 := tr1 ++ [WAction.delayMs 1000]
  if fs.existsPath (sessionDataDir id) then
    (Except.ok { sessionName := id, cleaned := true }, reg1,
     fs.rmRecursive (sessionDataDir id),
     tr2 ++ [WAction.rmDir (sessionDataDir id)])
  else
    (Except.ok { sessionName := id, cleaned := true }, reg1, fs, tr2)

/-- What settles the promise of `isAuthenticated` first
(src/unnamed/part_002 lines 215-246): either the `statusFind` callback
fires `desconnectedMobile` while the acquisition is still pending, or the
acquisition settles with an outcome, after which the `isAuthenticated`
probe of the client runs. -/
inductive AuthScenario where
  | disconnectedMobileFirst
  | acquireSettles (acquire : Except String Nat) (probe : Except String Bool)
deriving Repr

/-- The function `isAuthenticated` of src/unnamed/part_002 lines 215-246:
the wrapper promise only ever calls `resolve` — a `desconnectedMobile`
status resolves `false`, an acquisition rejection resolves `false`, a
failing probe resolves `false`, and a successful probe resolves its result. -/
def isAuthenticated (sc : AuthScenario) : Except String Bool :=
  match sc with
  | AuthScenario.disconnectedMobileFirst => Except.ok false
  | AuthScenario.acquireSettles (Except.error _) _ => Except.ok false
  | AuthScenario.acquireSettles (Except.ok _) (Except.ok b) => Except.ok b
  | AuthScenario.acquireSettles (Except.ok _) (Except.error _) => Except.ok false

/-- The result object returned by `sendText` (src/unnamed/part_002 lines
261-300). -/
structure SendTextResult where
  success : Bool
  errorMsg : Option String
  sendResult : Option Nat
  isAuthenticated : Bool
deriving DecidableEq, Repr

/-- The function `sendText` of src/unnamed/part_002 lines 261-300,
parameterized by the settlement of the `isAuthenticated(sessionName)` call
and by the combined outcome of the engine path (acquire, `client.sendText`,
`setOnlinePresence`).  Every branch returns a result object; no branch
rethrows. -/
def sendText (auth : Except String Bool) (send : Except String Nat) :
    SendTextResult :=
  match auth with
  | Except.error m =>
      { success := false, errorMsg := some ("Authentication check failed: " ++ m),
        sendResult := none, isAuthenticated := false }
  | Except.ok false =>
      { success := false, errorMsg := some "Session not authenticated",
        sendResult := none, isAuthenticated := false }
  | Except.ok true =>
      match send with
      | Except.ok r =>
          { success := true, errorMsg := none, sendResult := some r,
            isAuthenticated := true }
      | Except.error m =>
          { success := false, errorMsg := some m, sendResult := none,
            isAuthenticated := false }

/-- The result object returned by `listChats` (src/unnamed/part_002 lines
305-347). -/
structure ListChatsResult where
  success : Bool
  errorMsg : Option String
  chats : List Nat
  isAuthenticated : Bool
deriving DecidableEq, Repr

/-- The function `listChats` of src/unnamed/part_002 lines 305-347, shaped
like `sendText` but returning an empty chat list on every failure branch. -/
def listChats (auth : Except String Bool) (l : Except String (List Nat)) :
    ListChatsResult :=
  match auth with
  | Except.error m =>
      { success := false, errorMsg := some ("Authentication check failed: " ++ m),
        chats := [], isAuthenticated := false }
  | Except.ok false =>
      { success := false, errorMsg := some "Session not authenticated",
        chats := [], isAuthenticated := false }
  | Except.ok true =>
      match l with
      | Except.ok cs =>
          { success := true, errorMsg := none, chats := cs,
            isAuthenticated := true }
      | Except.error m =>
          { success := false, errorMsg := some m, chats := [],
            isAuthenticated := false }

/-! ### Supporting lemmas about the filesystem and registry models -/

theorem listStartsWith_self (l : List Char) : listStartsWith l l = true := by
  induction l with
  | nil => rfl
  | cons a tl ih => simp [listStartsWith, ih]

theorem strStartsWith_self (s : String) : strStartsWith s s = true :=
  listStartsWith_self s.data

theorem rmRecursive_not_exists (fs : Fs) (p : String) :
    (fs.rmRecursive p).existsPath p = false := by
  simp only [Fs.rmRecursive, Fs.existsPath, decide_eq_false_iff_not]
  intro hmem
  have := List.of_mem_filter hmem
  simp [strStartsWith_self] at this

theorem unlink_preserves_absent (fs : Fs) (p q : String)
    (h : fs.existsPath q = false) : (fs.unlink p).existsPath q = false := by
  simp only [Fs.unlink, Fs.existsPath, decide_eq_false_iff_not] at h ⊢
  intro hmem
  exact h (List.mem_of_mem_filter hmem)

theorem removeIfPresent_not_exists (fs : Fs) (p : String) :
    (removeIfPresent fs p).existsPath p = false := by
  unfold removeIfPresent
  split
  · simp only [Fs.unlink, Fs.existsPath, decide_eq_false_iff_not]
    intro hmem
    have := List.of_mem_filter hmem
    simp at this
  · next h => simpa using h

theorem removeIfPresent_preserves_absent (fs : Fs) (p q : String)
    (h : fs.existsPath q = false) :
    (removeIfPresent fs p).existsPath q = false := by
  unfold removeIfPresent
  split
  · exact unlink_preserves_absent fs p q h
  · exact h

theorem cleanup_removes_locks (fs : Fs) (id : String) :
    ∀ f ∈ chromeLockFiles,
      (cleanupChromeLockFiles fs id).existsPath (lockFilePath id f) = false := by
  intro f hf
  have hexp : cleanupChromeLockFiles fs id =
      removeIfPresent (removeIfPresent (removeIfPresent fs
        (lockFilePath id "SingletonLock")) (lockFilePath id "SingletonCookie"))
        (lockFilePath id "SingletonSocket") := rfl
  rw [hexp]
  simp only [chromeLockFiles, List.mem_cons, List.not_mem_nil, or_false] at hf
  rcases hf with h | h | h <;> subst h
  · exact removeIfPresent_preserves_absent _ _ _
      (removeIfPresent_preserves_absent _ _ _ (removeIfPresent_not_exists _ _))
  · exact removeIfPresent_preserves_absent _ _ _ (removeIfPresent_not_exists _ _)
  · exact removeIfPresent_not_exists _ _

theorem regGet_erase (reg : Registry) (id : String) :
    regGet (regErase reg id) id = none := by
  induction reg with
  | nil => rfl
  | cons p tl ih =>
      obtain ⟨k, v⟩ := p
      by_cases h : k = id
      · simp only [regErase, List.filter_cons, h] at ih ⊢
        simpa using ih
      · simp only [regErase, List.filter_cons, h] at ih ⊢
        simpa [regGet, h] using ih

theorem deleteFinish_reg (id : String) (reg : Registry) (fs : Fs)
    (tr : List WAction) : (deleteFinish id reg fs tr).2.1 = reg := by
  unfold deleteFinish
  split <;> rfl

theorem deleteFinish_dir_gone (id : String) (reg : Registry) (fs : Fs)
    (tr : List WAction) :
    ((deleteFinish id reg fs tr).2.2.1).existsPath (sessionDataDir id) = false := by
  unfold deleteFinish
  split
  · simpa using rmRecursive_not_exists fs (sessionDataDir id)
  · next h => simpa using h

theorem deleteFinish_summary (id : String) (reg : Registry) (fs : Fs)
    (tr : List WAction) :
    (deleteFinish id reg fs tr).1 =
      Except.ok { sessionName := id, deleted := true,
                  clientRemoved := !(regHas reg id),
                  dataDirectoryDeleted := true } := by
  unfold deleteFinish
  split
  · simp [rmRecursive_not_exists]
  · next h =>
      simp only [Bool.not_eq_true] at h
      simp [h]

theorem deleteFinish_trace_exists (id : String) (reg : Registry) (fs : Fs)
    (tr : List WAction) (h : fs.existsPath (sessionDataDir id) = true) :
    (deleteFinish id reg fs tr).2.2.2 =
      tr ++ [WAction.delayMs 1000, WAction.rmDir (sessionDataDir id)] := by
  unfold deleteFinish
  simp [h]

theorem deleteFinish_trace_absent (id : String) (reg : Registry) (fs : Fs)
    (tr : List WAction) (h : fs.existsPath (sessionDataDir id) = false) :
    (deleteFinish id reg fs tr).2.2.2 = tr := by
  unfold deleteFinish
  simp [h]

theorem deleteSession_reg_none (reg : Registry) (eng : Engine) (fs : Fs)
    (id : String) : regGet (deleteSession reg eng fs id).2.1 id = none := by
  unfold deleteSession
  split
  · rw [deleteFinish_reg]
    exact regGet_erase _ _
  · next hg =>
      split
      · split
        · rw [deleteFinish_reg]
          exact hg
        · rw [deleteFinish_reg]
          exact regGet_erase _ _
      · rw [deleteFinish_reg]
        exact hg

theorem deleteSession_dir_gone (reg : Registry) (eng : Engine) (fs : Fs)
    (id : String) :
    ((deleteSession reg eng fs id).2.2.1).existsPath (sessionDataDir id) = false := by
  unfold deleteSession
  split
  · exact deleteFinish_dir_gone _ _ _ _
  · split
    · split
      · exact deleteFinish_dir_gone _ _ _ _
      · exact deleteFinish_dir_gone _ _ _ _
    · exact deleteFinish_dir_gone _ _ _ _

theorem createWithLockRetry_has_attempt (reg : Registry) (eng : Engine)
    (fs : Fs) (id : String) :
    WAction.createAttempt ∈ (createWithLockRetry reg eng fs id).2.2.2 := by
  rcases h0 : eng.createResult 0 with e | c <;>
    simp only [createWithLockRetry, h0]
  · split
    · rcases h1 : eng.createResult 1 with e2 | c2 <;> simp [h1]
    · simp
  · simp

theorem createWithLockRetry_fail (reg : Registry) (eng : Engine) (fs : Fs)
    (id e : String) (hfail : eng.createResult 0 = Except.error e) :
    (lockErrorSignature e = false →
      countCreate (createWithLockRetry reg eng fs id).2.2.2 = 1 ∧
        (createWithLockRetry reg eng fs id).1 = Except.error e) ∧
    (lockErrorSignature e = true →
      countCreate (createWithLockRetry reg eng fs id).2.2.2 = 2 ∧
        (∀ f ∈ chromeLockFiles,
          ((createWithLockRetry reg eng fs id).2.2.1).existsPath
            (lockFilePath id f) = false) ∧
        WAction.delayMs 500 ∈ (createWithLockRetry reg eng fs id).2.2.2 ∧
        (createWithLockRetry reg eng fs id).1 = eng.createResult 1) := by
  constructor
  · intro hs
    simp [createWithLockRetry, hfail, hs, countCreate]
  · intro hs
    rcases h1 : eng.createResult 1 with e2 | c <;>
      simp [createWithLockRetry, hfail, hs, h1, countCreate] <;>
      exact cleanup_removes_locks fs id

/-! ### Sample engine behaviours used in witnesses and counterexamples -/

/-- Engine whose every call succeeds. -/
def engNominal : Engine :=
  { probeOk := true, createResult := fun _ => Except.ok 7,
    logoutResult := Except.ok (), closeResult := Except.ok (),
    isAuthResult := Except.ok true, reconnectTimesOut := false }

/-- Engine whose first creation attempt fails with a lock-signature message
and whose retry succeeds. -/
def engLockThenOk : Engine :=
  { probeOk := true,
    createResult := fun n =>
      if n = 0 then Except.error "SingletonLock" else Except.ok 9,
    logoutResult := Except.ok (), closeResult := Except.ok (),
    isAuthResult := Except.ok true, reconnectTimesOut := false }

/-- Engine whose logout call throws. -/
def engLogoutFails : Engine :=
  { probeOk := true, createResult := fun _ => Except.ok 7,
    logoutResult := Except.error "logout failed", closeResult := Except.ok (),
    isAuthResult := Except.ok true, reconnectTimesOut := false }

/-- Engine for which the reconnect race of `deleteSession` times out while
the background creation later resolves with client 42. -/
def engReconnectTimeout : Engine :=
  { probeOk := true, createResult := fun _ => Except.ok 42,
    logoutResult := Except.ok (), closeResult := Except.ok (),
    isAuthResult := Except.ok true, reconnectTimesOut := true }

/-- Engine with an empty cache probe behaviour and a successful fresh
creation returning client 42. -/
def engFreshCreate : Engine :=
  { probeOk := false, createResult := fun _ => Except.ok 42,
    logoutResult := Except.ok (), closeResult := Except.ok (),
    isAuthResult := Except.ok true, reconnectTimesOut := false }

/-! ### Claim theorems C3 to C10 -/

/-- C3: when creation inside acquire fails, a message matching the lock
signature (`SingletonLock` or `ProcessSingleton`) triggers deletion of the
known lock markers under the profile directory of the session, a fixed
500 ms delay, and exactly one retry whose own failure propagates with no
further retry; a failure with any other signature propagates after a single
creation attempt and zero retries (src/unnamed/part_002 lines 10-27 and
111-201). -/
theorem acquire_lock_retry_policy (reg : Registry) (eng : Engine) (fs : Fs)
    (id e : String)
    (hmiss : regGet reg id = none ∨ eng.probeOk = false)
    (hfail : eng.createResult 0 = Except.error e) :
    (lockErrorSignature e = false →
      countCreate (getOrCreateClientWithCallbacks reg eng fs id).2.2.2 = 1 ∧
        (getOrCreateClientWithCallbacks reg eng fs id).1 = Except.error e) ∧
    (lockErrorSignature e = true →
      countCreate (getOrCreateClientWithCallbacks reg eng fs id).2.2.2 = 2 ∧
        (∀ f ∈ chromeLockFiles,
          ((getOrCreateClientWithCallbacks reg eng fs id).2.2.1).existsPath
            (lockFilePath id f) = false) ∧
        WAction.delayMs 500 ∈ (getOrCreateClientWithCallbacks reg eng fs id).2.2.2 ∧
        (getOrCreateClientWithCallbacks reg eng fs id).1 = eng.createResult 1) := by
  rcases hg : regGet reg id with _ | c0
  · have h := createWithLockRetry_fail reg eng fs id e hfail
    simpa [getOrCreateClientWithCallbacks, hg] using h
  · rcases hmiss with hmiss | hp
    · rw [hg] at hmiss
      exact absurd hmiss (by simp)
    · have h := createWithLockRetry_fail (regErase reg id) eng fs id e hfail
      simp only [getOrCreateClientWithCallbacks, hg, hp, Bool.false_eq_true,
        if_false]
      constructor
      · intro hs
        have h1 := h.1 hs
        exact ⟨by simp [countCreate, h1.1], h1.2⟩
      · intro hs
        have h2 := h.2 hs
        exact ⟨by simp [countCreate, h2.1], h2.2.1,
          List.mem_cons_of_mem _ h2.2.2.1, h2.2.2.2⟩

theorem acquire_lock_retry_policy_witness :
    lockErrorSignature "SingletonLock" = true ∧
    (countCreate (getOrCreateClientWithCallbacks [] engLockThenOk
        ⟨[lockFilePath "s" "SingletonLock"]⟩ "s").2.2.2 = 2 ∧
      (∀ f ∈ chromeLockFiles,
        ((getOrCreateClientWithCallbacks [] engLockThenOk
          ⟨[lockFilePath "s" "SingletonLock"]⟩ "s").2.2.1).existsPath
          (lockFilePath "s" f) = false) ∧
      WAction.delayMs 500 ∈ (getOrCreateClientWithCallbacks [] engLockThenOk
        ⟨[lockFilePath "s" "SingletonLock"]⟩ "s").2.2.2 ∧
      (getOrCreateClientWithCallbacks [] engLockThenOk
        ⟨[lockFilePath "s" "SingletonLock"]⟩ "s").1 =
        engLockThenOk.createResult 1) :=
  ⟨by decide,
   (acquire_lock_retry_policy [] engLockThenOk
      ⟨[lockFilePath "s" "SingletonLock"]⟩ "s" "SingletonLock"
      (Or.inl rfl) rfl).2 (by decide)⟩

/-- C4: `sendText` and `listChats` return a plain result object on every
path (the Lean embedding is a total function, mirroring the try/catch
structure that never rethrows): a failed or negative authentication check
yields `success = false` and `isAuthenticated = false` (with `chats = []`
for `listChats`), and a failing engine call after a passed check yields the
same shape instead of an exception (src/unnamed/part_002 lines 261-347). -/
theorem sendText_listChats_unauthenticated :
    (∀ (m : String) (s : Except String Nat),
        sendText (Except.error m) s =
          { success := false,
            errorMsg := some ("Authentication check failed: " ++ m),
            sendResult := none, isAuthenticated := false }) ∧
    (∀ s : Except String Nat,
        sendText (Except.ok false) s =
          { success := false, errorMsg := some "Session not authenticated",
            sendResult := none, isAuthenticated := false }) ∧
    (∀ m : String,
        sendText (Except.ok true) (Except.error m) =
          { success := false, errorMsg := some m, sendResult := none,
            isAuthenticated := false }) ∧
    (∀ (m : String) (l : Except String (List Nat)),
        listChats (Except.error m) l =
          { success := false,
            errorMsg := some ("Authentication check failed: " ++ m),
            chats := [], isAuthenticated := false }) ∧
    (∀ l : Except String (List Nat),
        listChats (Except.ok false) l =
          { success := false, errorMsg := some "Session not authenticated",
            chats := [], isAuthenticated := false }) ∧
    (∀ m : String,
        listChats (Except.ok true) (Except.error m) =
          { success := false, errorMsg := some m, chats := [],
            isAuthenticated := false }) :=
  ⟨fun _ _ => rfl, fun _ => rfl, fun _ => rfl, fun _ _ => rfl, fun _ => rfl,
   fun _ => rfl⟩

/-- C5: with a live cached handle, `deleteSession` attempts the graceful
logout before any removal of persisted data, and when the logout throws the
error is caught, the handle is removed from the registry, and the profile
directory is still recursively deleted when it exists, with the logout
strictly preceding the deletion in the trace (src/unnamed/part_002 lines
352-442). -/
theorem deleteSession_logout_failure_tolerated (reg : Registry) (eng : Engine)
    (fs : Fs) (id : String) (c : Nat) (m : String)
    (hc : regGet reg id = some c)
    (hl : eng.logoutResult = Except.error m) :
    (∃ s, (deleteSession reg eng fs id).1 = Except.ok s) ∧
    regGet (deleteSession reg eng fs id).2.1 id = none ∧
    WAction.logoutCall ∈ (deleteSession reg eng fs id).2.2.2 ∧
    (fs.existsPath (sessionDataDir id) = true →
      (deleteSession reg eng fs id).2.2.2 =
        [WAction.logoutCall, WAction.delayMs 1000,
         WAction.rmDir (sessionDataDir id)] ∧
      ((deleteSession reg eng fs id).2.2.1).existsPath
        (sessionDataDir id) = false) := by
  have hdel : deleteSession reg eng fs id =
      deleteFinish id (regErase reg id) fs [WAction.logoutCall] := by
    simp [deleteSession, cachedTeardownTrace, hc, hl]
  refine ⟨?_, ?_, ?_, ?_⟩
  · rw [hdel, deleteFinish_summary]
    exact ⟨_, rfl⟩
  · rw [hdel, deleteFinish_reg]
    exact regGet_erase _ _
  · rw [hdel]
    unfold deleteFinish
    split
    · exact List.mem_append_left _ (List.mem_cons_self _ _)
    · exact List.mem_cons_self _ _
  · intro hdir
    rw [hdel]
    exact ⟨by rw [deleteFinish_trace_exists _ _ _ _ hdir]; rfl,
      deleteFinish_dir_gone _ _ _ _⟩

theorem deleteSession_logout_failure_tolerated_witness :
    (∃ s, (deleteSession [("s", 5)] engLogoutFails
        ⟨["data/tokens/s"]⟩ "s").1 = Except.ok s) ∧
    regGet (deleteSession [("s", 5)] engLogoutFails
      ⟨["data/tokens/s"]⟩ "s").2.1 "s" = none ∧
    WAction.logoutCall ∈ (deleteSession [("s", 5)] engLogoutFails
      ⟨["data/tokens/s"]⟩ "s").2.2.2 ∧
    ((deleteSession [("s", 5)] engLogoutFails ⟨["data/tokens/s"]⟩ "s").2.2.2 =
        [WAction.logoutCall, WAction.delayMs 1000,
         WAction.rmDir (sessionDataDir "s")] ∧
      ((deleteSession [("s", 5)] engLogoutFails
        ⟨["data/tokens/s"]⟩ "s").2.2.1).existsPath (sessionDataDir "s") = false) :=
  have h := deleteSession_logout_failure_tolerated [("s", 5)] engLogoutFails
    ⟨["data/tokens/s"]⟩ "s" 5 "logout failed" (by decide) rfl
  ⟨h.1, h.2.1, h.2.2.1, h.2.2.2 (by decide)⟩

theorem deleteSession_on_clean (reg : Registry) (eng : Engine) (fs : Fs)
    (id : String) (hg : regGet reg id = none)
    (hd : fs.existsPath (sessionDataDir id) = false) :
    deleteSession reg eng fs id =
      (Except.ok { sessionName := id, deleted := true, clientRemoved := true,
                   dataDirectoryDeleted := true },
       reg, fs, []) := by
  simp [deleteSession, hg, hd, deleteFinish, regHas]

/-- C6 refuted as stated: the summary fields of the second delete report
the current absence of the handle and directory, not an action of the call.
On a concrete session with a cached handle and a profile directory, the
second `deleteSession` returns `clientRemoved = true` and
`dataDirectoryDeleted = true`, whereas the claim reads the summary as
reporting that no handle was removed (`clientRemoved = false`) and that the
directory was merely already absent (src/unnamed/part_002 lines 430-436
compute `clientRemoved` as `clients.has(sessionName) === false` and
`dataDirectoryDeleted` as `!fs.existsSync(dir)` at return time). -/
theorem deleteSession_twice_counterexample :
    (deleteSession
        (deleteSession [("s", 5)] engNominal
          ⟨["data/tokens/s", "data/tokens/s/Default"]⟩ "s").2.1
        engNominal
        (deleteSession [("s", 5)] engNominal
          ⟨["data/tokens/s", "data/tokens/s/Default"]⟩ "s").2.2.1
        "s").1 =
      Except.ok { sessionName := "s", deleted := true, clientRemoved := true,
                  dataDirectoryDeleted := true } := by
  rfl

/-- C6 (amended): calling `deleteSession` twice in succession is
idempotent — the second call does not error, performs no engine call and no
filesystem mutation (its trace is empty and registry and filesystem are
unchanged), and its summary carries `clientRemoved = true` and
`dataDirectoryDeleted = true`, those fields reporting that the handle and
the directory are absent after the call rather than that this call removed
them (src/unnamed/part_002 lines 352-442). -/
theorem deleteSession_twice_idempotent (reg : Registry) (eng : Engine)
    (fs : Fs) (id : String) :
    (deleteSession (deleteSession reg eng fs id).2.1 eng
        (deleteSession reg eng fs id).2.2.1 id).1 =
      Except.ok { sessionName := id, deleted := true, clientRemoved := true,
                  dataDirectoryDeleted := true } ∧
    (deleteSession (deleteSession reg eng fs id).2.1 eng
        (deleteSession reg eng fs id).2.2.1 id).2.1 =
      (deleteSession reg eng fs id).2.1 ∧
    (deleteSession (deleteSession reg eng fs id).2.1 eng
        (deleteSession reg eng fs id).2.2.1 id).2.2.1 =
      (deleteSession reg eng fs id).2.2.1 ∧
    (deleteSession (deleteSession reg eng fs id).2.1 eng
        (deleteSession reg eng fs id).2.2.1 id).2.2.2 = [] := by
  have h := deleteSession_on_clean (deleteSession reg eng fs id).2.1 eng
    (deleteSession reg eng fs id).2.2.1 id
    (deleteSession_reg_none reg eng fs id)
    (deleteSession_dir_gone reg eng fs id)
  rw [h]
  exact ⟨rfl, rfl, rfl, rfl⟩

/-- C7 refuted as stated: a freshly created handle is returned without any
`getConnectionState` probe in the same call.  With an empty registry and a
succeeding creation, acquire returns the new handle while its trace
contains no successful probe (src/unnamed/part_002 lines 51-109 return the
created client directly after `clients.set`). -/
theorem acquire_probe_counterexample :
    (getOrCreateClientWithCallbacks [] engFreshCreate ⟨[]⟩ "s").1 =
        Except.ok 42 ∧
      WAction.probeOk ∉
        (getOrCreateClientWithCallbacks [] engFreshCreate ⟨[]⟩ "s").2.2.2 :=
  ⟨rfl, by decide⟩

/-- C7 (amended): every handle returned by acquire either is the cached
handle and passed a successful `getConnectionState` probe within the same
call, or was freshly created by a `wppconnect.create` invocation of the
same call; only the cached fast path performs the probe
(src/unnamed/part_002 lines 35-49 and 51-109). -/
theorem acquire_probe_or_fresh (reg : Registry) (eng : Engine) (fs : Fs)
    (id : String) (c : Nat)
    (h : (getOrCreateClientWithCallbacks reg eng fs id).1 = Except.ok c) :
    (WAction.probeOk ∈ (getOrCreateClientWithCallbacks reg eng fs id).2.2.2 ∧
        regGet reg id = some c) ∨
      WAction.createAttempt ∈
        (getOrCreateClientWithCallbacks reg eng fs id).2.2.2 := by
  rcases hg : regGet reg id with _ | c0
  · right
    simpa [getOrCreateClientWithCallbacks, hg] using
      createWithLockRetry_has_attempt reg eng fs id
  · by_cases hp : eng.probeOk = true
    · left
      simp only [getOrCreateClientWithCallbacks, hg, hp, if_true] at h ⊢
      have hcc : c0 = c := by simpa using h
      subst hcc
      exact ⟨List.mem_cons_self _ _, rfl⟩
    · right
      simp only [Bool.not_eq_true] at hp
      simp only [getOrCreateClientWithCallbacks, hg, hp, Bool.false_eq_true,
        if_false]
      exact List.mem_cons_of_mem _
        (createWithLockRetry_has_attempt (regErase reg id) eng fs id)

theorem acquire_probe_or_fresh_witness :
    (WAction.probeOk ∈
        (getOrCreateClientWithCallbacks [("s", 5)] engNominal ⟨[]⟩ "s").2.2.2 ∧
      regGet [("s", 5)] "s" = some 5) ∨
    WAction.createAttempt ∈
      (getOrCreateClientWithCallbacks [("s", 5)] engNominal ⟨[]⟩ "s").2.2.2 :=
  acquire_probe_or_fresh [("s", 5)] engNominal ⟨[]⟩ "s" 5 rfl

/-- C8 exhibited bug: nothing guards the continuation of the abandoned
reconnect of `deleteSession`.  At the concrete failing input — no cached
handle, existing profile directory, reconnect race timing out, background
creation later resolving with client 42 — the delete completes with a clean
registry and a deleted directory, and the late `clients.set` of
src/unnamed/part_002 line 106 then re-introduces an entry for the deleted
session into the registry. -/
theorem late_completion_corrupts_registry :
    regGet (deleteSession [] engReconnectTimeout
        ⟨["data/tokens/s"]⟩ "s").2.1 "s" = none ∧
    ((deleteSession [] engReconnectTimeout
        ⟨["data/tokens/s"]⟩ "s").2.2.1).existsPath "data/tokens/s" = false ∧
    regGet (lateCreateCompletion
        (deleteSession [] engReconnectTimeout ⟨["data/tokens/s"]⟩ "s").2.1
        "s" 42) "s" = some 42 := by
  decide

/-- C9: the public `isAuthenticated` only ever resolves with a boolean and
never rejects: a `desconnectedMobile` status during acquisition, an
acquisition failure, and a failing engine probe each resolve `false`, and a
successful probe resolves its boolean result (src/unnamed/part_002 lines
215-246). -/
theorem isAuthenticated_never_rejects :
    (∀ sc : AuthScenario, ∃ b : Bool, isAuthenticated sc = Except.ok b) ∧
    (∀ (m : String) (p : Except String Bool),
        isAuthenticated (AuthScenario.acquireSettles (Except.error m) p) =
          Except.ok false) ∧
    (∀ (a : Nat) (m : String),
        isAuthenticated
            (AuthScenario.acquireSettles (Except.ok a) (Except.error m)) =
          Except.ok false) ∧
    isAuthenticated AuthScenario.disconnectedMobileFirst = Except.ok false := by
  refine ⟨?_, ?_, fun a m => rfl, rfl⟩
  · intro sc
    rcases sc with _ | ⟨acq, probe⟩
    · exact ⟨false, rfl⟩
    · rcases acq with m | a
      · rcases probe with m2 | b
        · exact ⟨false, rfl⟩
        · exact ⟨false, rfl⟩
      · rcases probe with m2 | b
        · exact ⟨false, rfl⟩
        · exact ⟨b, rfl⟩
  · intro m p
    rcases p with m2 | b <;> rfl

/-- C10: `cleanupFailedSession` never calls logout on any path, and with
neither a cached handle nor a persisted directory it performs no engine
call and no filesystem deletion, still waits the fixed 1000 ms grace delay,
and returns `cleaned = true` without error (src/unnamed/part_002 lines
449-492). -/
theorem cleanupFailedSession_no_logout :
    (∀ (reg : Registry) (fs : Fs) (id : String),
        WAction.logoutCall ∉ (cleanupFailedSession reg fs id).2.2.2) ∧
    (∀ (reg : Registry) (fs : Fs) (id : String),
        regGet reg id = none →
        fs.existsPath (sessionDataDir id) = false →
        (cleanupFailedSession reg fs id).1 =
            Except.ok { sessionName := id, cleaned := true } ∧
          (cleanupFailedSession reg fs id).2.2.2 = [WAction.delayMs 1000] ∧
          (cleanupFailedSession reg fs id).2.1 = reg ∧
          (cleanupFailedSession reg fs id).2.2.1 = fs) := by
  constructor
  · intro reg fs id
    unfold cleanupFailedSession
    rcases hg : regGet reg id with _ | c <;>
      by_cases hd : fs.existsPath (sessionDataDir id) = true <;>
        simp [hg, hd]
  · intro reg fs id hg hd
    simp [cleanupFailedSession, hg, hd]

theorem cleanupFailedSession_no_logout_witness :
    WAction.logoutCall ∉ (cleanupFailedSession [] ⟨[]⟩ "s").2.2.2 ∧
    ((cleanupFailedSession [] ⟨[]⟩ "s").1 =
        Except.ok { sessionName := "s", cleaned := true } ∧
      (cleanupFailedSession [] ⟨[]⟩ "s").2.2.2 = [WAction.delayMs 1000] ∧
      (cleanupFailedSession [] ⟨[]⟩ "s").2.1 = [] ∧
      (cleanupFailedSession [] ⟨[]⟩ "s").2.2.1 = ⟨[]⟩) :=
  ⟨cleanupFailedSession_no_logout.1 [] ⟨[]⟩ "s",
   cleanupFailedSession_no_logout.2 [] ⟨[]⟩ "s" rfl rfl⟩

end KpiwaWpp
